import Mathlib

/-!
Shallow embedding of the NozzleCAM firmware core
( src/src/main.cpp — T-Camera Plus S3 variant, and
  src/version/default/main.cpp — TTGO T-Journal variant ).

The camera driver, the HTTP transport and the JPEG converter are external
collaborators; their outcomes (frame available or not, conversion result,
write success) are supplied as environment data.  Each handler is embedded
as a function from this environment to the trace of primitive actions the
C code performs (acquisitions, buffer releases, frees, chunk writes,
delays), plus its HTTP output.  Mutable configuration globals are passed
as explicit state.
-/

namespace NozzleCam

/-- Consecutive-null bound of the streaming loop
(src/src/main.cpp line 464: `if (++nulls >= 8) break;`). -/
def STREAM_NULL_BOUND : Nat := 8

/-- Probe bound of the health endpoint
(src/src/main.cpp line 407: `for (int i=0;i<2 && !ok;i++)`). -/
def HEALTH_PROBE_TRIES : Nat := 2

/-- Power-down pin of the camera module; the sentinel -1 means the line is
not physically present (src/src/main.cpp line 48). -/
def PWDN_GPIO_NUM : Int := -1

/-- Reset pin of the camera module (src/src/main.cpp line 49). -/
def RESET_GPIO_NUM : Int := 3

/-- Numeric code of FRAMESIZE_SVGA as used by the repository
(the default variant exposes framesize 7 = SVGA in its UI). -/
def FRAMESIZE_SVGA : Nat := 7

/-- The mutable configuration globals of src/src/main.cpp lines 78–81:
XCLK_HZ, STREAM_SIZE, JPEG_QUALITY, FB_COUNT.  The camera pin numbers are
preprocessor constants, modelled as the fixed Lean constants above. -/
structure Cfg where
  xclkHz : Nat
  streamSize : Nat
  jpegQuality : Nat
  fbCount : Nat
deriving DecidableEq

/-- Initial values of the configuration globals
(src/src/main.cpp lines 78–81). -/
def initialCfg : Cfg :=
  { xclkHz := 24000000
    streamSize := FRAMESIZE_SVGA
    jpegQuality := 12
    fbCount := 2 }

/-- Environment for one successfully acquired frame: its pixel format
(already JPEG or not), its payload bytes, the result the JPEG converter
would produce for it (none = frame2jpg fails), and the success of the
three per-part transport writes (header, payload, trailing delimiter). -/
structure FrameEnv where
  isJpeg : Bool
  data : List Nat
  conv : Option (List Nat)
  wHdr : Bool
  wPay : Bool
  wTrl : Bool
deriving DecidableEq

/-- One chunk written to the client inside a streaming session. -/
inductive Chunk where
  | hdr (n : Nat)
  | payload (bytes : List Nat)
  | trailer
deriving DecidableEq

/-- Primitive actions performed by the HTTP handlers: driver calls
(esp_camera_fb_get / esp_camera_fb_return), frame2jpg invocations with
their quality argument and outcome, free of a converted buffer, client
writes, error responses and delays. -/
inductive Act where
  | acqOk
  | acqNull
  | convert (quality : Nat) (ok : Bool)
  | fbReturn
  | bufFree
  | send (c : Chunk)
  | send500
  | delayMs (n : Nat)
  | yield
deriving DecidableEq

/-- Environment of one iteration of the streaming loop of
src/src/main.cpp handleStream: the connectivity check at the loop head
fails, or esp_camera_fb_get returns null, or it returns a frame. -/
inductive Ev where
  | disconnect
  | nullFrame
  | frame (f : FrameEnv)
deriving DecidableEq

/-- Environment of one iteration of the default-variant stream_handler
(src/version/default/main.cpp); that loop has no connectivity check. -/
inductive DEv where
  | nullFrame
  | frame (f : FrameEnv)
deriving DecidableEq

/-- Body of one frame iteration of handleStream
(src/src/main.cpp lines 470–484), given the quality global and the frame
environment.  Returns the actions performed and whether the loop
continues.  If the frame is already JPEG the buffer is aliased
(`jpg = fb->buf`) and the FrameBuffer is returned after the writes; after
a failed write the FrameBuffer is returned and the loop breaks.
Otherwise frame2jpg runs, the FrameBuffer is returned immediately after
it (success or failure), a failed conversion breaks the loop, and on the
write paths the separately allocated buffer is freed instead. -/
def frameIterActs (q : Nat) : FrameEnv → List Act × Bool
  | ⟨true, d, _, wH, wP, wT⟩ =>
    if wH then
      if wP then
        if wT then
          ([Act.acqOk, Act.send (Chunk.hdr d.length), Act.send (Chunk.payload d),
            Act.send Chunk.trailer, Act.fbReturn], true)
        else
          ([Act.acqOk, Act.send (Chunk.hdr d.length), Act.send (Chunk.payload d),
            Act.fbReturn], false)
      else
        ([Act.acqOk, Act.send (Chunk.hdr d.length), Act.fbReturn], false)
    else
      ([Act.acqOk, Act.fbReturn], false)
  | ⟨false, _, none, _, _, _⟩ =>
    ([Act.acqOk, Act.convert q false, Act.fbReturn], false)
  | ⟨false, _, some j, wH, wP, wT⟩ =>
    if wH then
      if wP then
        if wT then
          ([Act.acqOk, Act.convert q true, Act.fbReturn,
            Act.send (Chunk.hdr j.length), Act.send (Chunk.payload j),
            Act.send Chunk.trailer, Act.bufFree], true)
        else
          ([Act.acqOk, Act.convert q true, Act.fbReturn,
            Act.send (Chunk.hdr j.length), Act.send (Chunk.payload j),
            Act.bufFree], false)
      else
        ([Act.acqOk, Act.convert q true, Act.fbReturn,
          Act.send (Chunk.hdr j.length), Act.bufFree], false)
    else
      ([Act.acqOk, Act.convert q true, Act.fbReturn, Act.bufFree], false)

/-- The streaming loop of handleStream (src/src/main.cpp lines 460–486).
First argument is the JPEG_QUALITY global, second the `uint8_t nulls`
counter.  A null acquisition increments the counter (uint8_t, hence the
mod 256) and breaks once it reaches STREAM_NULL_BOUND, otherwise retries
after delay(8); a successful acquisition resets the counter to zero and
ends a successful iteration with delay(1). -/
def streamLoop (q : Nat) : Nat → List Ev → List Act
  | _, [] => []
  | _, Ev.disconnect :: _ => []
  | nulls, Ev.nullFrame :: rest =>
    if STREAM_NULL_BOUND ≤ (nulls + 1) % 256 then
      [Act.acqNull]
    else
      Act.acqNull :: Act.delayMs 8 :: streamLoop q ((nulls + 1) % 256) rest
  | _, Ev.frame f :: rest =>
    (frameIterActs q f).1 ++
      (if (frameIterActs q f).2 then Act.delayMs 1 :: streamLoop q 0 rest else [])

/-- Body of one frame iteration of the default-variant stream_handler
(src/version/default/main.cpp lines 134–165).  Identical ownership
discipline, except that a failed conversion additionally sends an HTTP
500 before breaking. -/
def defaultFrameIterActs (q : Nat) : FrameEnv → List Act × Bool
  | ⟨true, d, _, wH, wP, wT⟩ =>
    if wH then
      if wP then
        if wT then
          ([Act.acqOk, Act.send (Chunk.hdr d.length), Act.send (Chunk.payload d),
            Act.send Chunk.trailer, Act.fbReturn], true)
        else
          ([Act.acqOk, Act.send (Chunk.hdr d.length), Act.send (Chunk.payload d),
            Act.fbReturn], false)
      else
        ([Act.acqOk, Act.send (Chunk.hdr d.length), Act.fbReturn], false)
    else
      ([Act.acqOk, Act.fbReturn], false)
  | ⟨false, _, none, _, _, _⟩ =>
    ([Act.acqOk, Act.convert q false, Act.fbReturn, Act.send500], false)
  | ⟨false, _, some j, wH, wP, wT⟩ =>
    if wH then
      if wP then
        if wT then
          ([Act.acqOk, Act.convert q true, Act.fbReturn,
            Act.send (Chunk.hdr j.length), Act.send (Chunk.payload j),
            Act.send Chunk.trailer, Act.bufFree], true)
        else
          ([Act.acqOk, Act.convert q true, Act.fbReturn,
            Act.send (Chunk.hdr j.length), Act.send (Chunk.payload j),
            Act.bufFree], false)
      else
        ([Act.acqOk, Act.convert q true, Act.fbReturn,
          Act.send (Chunk.hdr j.length), Act.bufFree], false)
    else
      ([Act.acqOk, Act.convert q true, Act.fbReturn, Act.bufFree], false)

/-- The `while (true)` loop of the default-variant stream_handler
(src/version/default/main.cpp lines 128–168).  A null acquisition sends
an HTTP 500 and breaks at once — no counter, no delay, no retry; a
successful iteration ends with vTaskDelay(1). -/
def defaultStreamLoop (q : Nat) : List DEv → List Act
  | [] => []
  | DEv.nullFrame :: _ => [Act.acqNull, Act.send500]
  | DEv.frame f :: rest =>
    (defaultFrameIterActs q f).1 ++
      (if (defaultFrameIterActs q f).2 then Act.yield :: defaultStreamLoop q rest else [])

/-- The default-variant stream_handler entry: httpd_resp_set_type is sent
first and an early failure there returns before the loop
(src/version/default/main.cpp lines 125–126). -/
def default_stream_handler (q : Nat) (setTypeOk : Bool) (devs : List DEv) : List Act :=
  if setTypeOk then defaultStreamLoop q devs else []

/-- Response preamble of handleStream (src/src/main.cpp lines 452–458),
sent once by client.print before the loop. -/
def streamPreamble : String :=
  "HTTP/1.1 200 OK\r\nContent-Type: multipart/x-mixed-replace; boundary=frame\r\nCache-Control: no-store, no-cache, must-revalidate, max-age=0\r\nPragma: no-cache\r\nConnection: close\r\n\r\n"

/-- Per-part header produced by snprintf in both streaming handlers
(src/src/main.cpp lines 478–479). -/
def partHeader (n : Nat) : String :=
  "--frame\r\nContent-Type: image/jpeg\r\nContent-Length: " ++ Nat.repr n ++ "\r\n\r\n"

/-- Byte rendering of a written chunk (characters as byte values). -/
def renderChunk : Chunk → List Nat
  | Chunk.hdr n => (partHeader n).toList.map Char.toNat
  | Chunk.payload b => b
  | Chunk.trailer => [13, 10]

/-- Outcome of handleStream (src/src/main.cpp lines 448–487): 503 when
the camera is not ready, early return when there is no client, otherwise
the preamble followed by the session trace. -/
inductive StreamOut where
  | notReady
  | noClient
  | session (preamble : String) (acts : List Act)
deriving DecidableEq

/-- handleStream (src/src/main.cpp lines 448–487) in state-passing form.
The handler contains no assignment to the configuration globals, so the
state passes through unchanged; JPEG_QUALITY is read for frame2jpg. -/
def handleStream (g : Cfg) (camReady hasClient : Bool) (evs : List Ev) :
    Cfg × StreamOut :=
  (g,
    if camReady = false then StreamOut.notReady
    else if hasClient = false then StreamOut.noClient
    else StreamOut.session streamPreamble (streamLoop g.jpegQuality 0 evs))

/-- Outcome of handleJpg: 503 "cam not ready", 500 "fb NULL",
500 "frame2jpg failed", or a 200 image/jpeg response carrying the bytes
whose length is sent as Content-Length. -/
inductive JpgOut where
  | notReady
  | fbNull
  | convFailed
  | image (bytes : List Nat)
deriving DecidableEq

/-- handleJpg (src/src/main.cpp lines 428–445) in state-passing form.
The write to the client has its result ignored by the code.  The final
statement `if (fb) esp_camera_fb_return(fb); else if (jpg) free(jpg);`
releases exactly one of the two resources. -/
def handleJpg (g : Cfg) (camReady : Bool) (acq : Option FrameEnv) :
    Cfg × JpgOut × List Act :=
  (g,
    if camReady = false then (JpgOut.notReady, [])
    else
      match acq with
      | none => (JpgOut.fbNull, [Act.acqNull])
      | some f =>
        if f.isJpeg then
          (JpgOut.image f.data,
            [Act.acqOk, Act.send (Chunk.payload f.data), Act.fbReturn])
        else
          match f.conv with
          | none =>
            (JpgOut.convFailed,
              [Act.acqOk, Act.convert g.jpegQuality false, Act.fbReturn])
          | some j =>
            (JpgOut.image j,
              [Act.acqOk, Act.convert g.jpegQuality true, Act.fbReturn,
               Act.send (Chunk.payload j), Act.bufFree]))

/-- JSON body built by handleHealth via snprintf
(src/src/main.cpp lines 416–417). -/
def healthJson (ok : Bool) (fi fp : Nat) : String :=
  "\x7b\"ok\":" ++ (if ok then "true" else "false")
    ++ ",\"free_int\":" ++ Nat.repr fi
    ++ ",\"free_psram\":" ++ Nat.repr fp ++ "\x7d"

/-- Result of handleHealth: the probe outcome, the HTTP status, the JSON
body and the trace of probe actions. -/
structure HealthResult where
  ok : Bool
  status : Nat
  body : String
  trace : List Act
deriving DecidableEq

/-- The probe loop of handleHealth (src/src/main.cpp lines 406–412):
`for (int i=0;i<2 && !ok;i++)` — fb is the per-attempt acquisition
outcome, the first success returns the frame and sets ok, a null attempt
is followed by delay(15). -/
def probeFrom (fb : Nat → Bool) : Nat → Nat → Bool × List Act
  | _, 0 => (false, [])
  | i, k + 1 =>
    if fb i then
      (true, [Act.acqOk, Act.fbReturn])
    else
      let r := probeFrom fb (i + 1) k
      (r.1, Act.acqNull :: Act.delayMs 15 :: r.2)

/-- handleHealth (src/src/main.cpp lines 404–419) in state-passing form:
no probe at all when cam_ready is false, at most HEALTH_PROBE_TRIES
acquire/release cycles otherwise, JSON body, status 200 when ok else
500. -/
def handleHealth (g : Cfg) (camReady : Bool) (fb : Nat → Bool) (fi fp : Nat) :
    Cfg × HealthResult :=
  let p := if camReady then probeFrom fb 0 HEALTH_PROBE_TRIES else (false, [])
  (g,
    { ok := p.1
      status := if p.1 then 200 else 500
      body := healthJson p.1 fi fp
      trace := p.2 })

/-- Primitive calls made during camera_reinit.  The pulsePowerReset
constructor stands for a power-down/reset line sequencing step; it is in
the vocabulary so that its absence from the traces of camera_reinit can
be stated — the source contains no such step. -/
inductive RCall where
  | deinit
  | sccbRecover
  | pulsePowerReset
  | initAttempt (xclkHz fbCount : Nat) (fbInPsram : Bool)
  | setFramesize (n : Nat)
  | setQuality (n : Nat)
  | setGainCtrl (n : Nat)
  | setExposureCtrl (n : Nat)
  | setWhitebal (n : Nat)
  | setAwbGain (n : Nat)
  | fbGet (ok : Bool)
  | fbReturn
  | delayMs (n : Nat)
deriving DecidableEq

/-- The fields of camera_config_t that make_cam_cfg fills from the
configuration globals (src/src/main.cpp lines 113–141); the pin and
LEDC fields are compile-time constants and are not repeated here. -/
structure CamConfig where
  xclkFreqHz : Nat
  frameSize : Nat
  jpegQuality : Nat
  fbCount : Nat
  fbInPsram : Bool
deriving DecidableEq

/-- make_cam_cfg (src/src/main.cpp lines 113–141):
`c.fb_count = (psramFound() ? FB_COUNT : 1)` and
`c.fb_location = psramFound() ? CAMERA_FB_IN_PSRAM : CAMERA_FB_IN_DRAM`. -/
def make_cam_cfg (g : Cfg) (psram : Bool) : CamConfig :=
  { xclkFreqHz := g.xclkHz
    frameSize := g.streamSize
    jpegQuality := g.jpegQuality
    fbCount := if psram then g.fbCount else 1
    fbInPsram := psram }

/-- Which optional setter function pointers the live sensor handle
provides (src/src/main.cpp lines 161–168 test each pointer). -/
structure SensorCaps where
  hasFramesize : Bool
  hasQuality : Bool
  hasGainCtrl : Bool
  hasExposureCtrl : Bool
  hasWhitebal : Bool
  hasAwbGain : Bool
deriving DecidableEq

/-- Environment of one camera_reinit run: PSRAM presence, the outcomes of
the two esp_camera_init attempts, the sensor handle returned by
esp_camera_sensor_get, and the outcome of each warm-up acquisition. -/
structure ReinitEnv where
  psram : Bool
  init1Ok : Bool
  init2Ok : Bool
  sensor : Option SensorCaps
  warmupFb : Nat → Bool

/-- Setter calls applied to the live sensor handle after a successful
init (src/src/main.cpp lines 160–168). -/
def sensorApplyActs (s : Option SensorCaps) (g : Cfg) : List RCall :=
  match s with
  | none => []
  | some c =>
    (if c.hasFramesize then [RCall.setFramesize g.streamSize] else [])
      ++ (if c.hasQuality then [RCall.setQuality g.jpegQuality] else [])
      ++ (if c.hasGainCtrl then [RCall.setGainCtrl 1] else [])
      ++ (if c.hasExposureCtrl then [RCall.setExposureCtrl 1] else [])
      ++ (if c.hasWhitebal then [RCall.setWhitebal 1] else [])
      ++ (if c.hasAwbGain then [RCall.setAwbGain 1] else [])

/-- Warm-up loop after a successful init (src/src/main.cpp line 169):
`for (int i=0;i<4;i++){ fb = esp_camera_fb_get(); if (fb)
esp_camera_fb_return(fb); delay(30); }`. -/
def warmupActs (fb : Nat → Bool) : Nat → Nat → List RCall
  | _, 0 => []
  | i, k + 1 =>
    (RCall.fbGet (fb i) :: (if fb i then [RCall.fbReturn] else []))
      ++ RCall.delayMs 30 :: warmupActs fb (i + 1) k

/-- Result of camera_reinit: the (possibly updated) configuration
globals, the cam_ready flag it leaves behind, its boolean return value
and the trace of primitive calls it made. -/
structure ReinitResult where
  cfg : Cfg
  camReady : Bool
  ok : Bool
  trace : List RCall
deriving DecidableEq

/-- camera_reinit (src/src/main.cpp lines 143–173): esp_camera_deinit,
then sccb_recover, then an init attempt from the current globals; on
failure the XCLK_HZ global is set to 20000000 and init is attempted once
more from the updated globals; a second failure sets cam_ready false and
returns false.  On success the sensor settings are re-applied, four
warm-up acquire/release cycles run, cam_ready is set true. -/
def camera_reinit (g : Cfg) (e : ReinitEnv) : ReinitResult :=
  let pre := [RCall.deinit, RCall.sccbRecover]
  let c1 := make_cam_cfg g e.psram
  let a1 := RCall.initAttempt c1.xclkFreqHz c1.fbCount c1.fbInPsram
  if e.init1Ok then
    { cfg := g
      camReady := true
      ok := true
      trace := pre ++ a1 :: (sensorApplyActs e.sensor g ++ warmupActs e.warmupFb 0 4) }
  else
    let g2 : Cfg := { g with xclkHz := 20000000 }
    let c2 := make_cam_cfg g2 e.psram
    let a2 := RCall.initAttempt c2.xclkFreqHz c2.fbCount c2.fbInPsram
    if e.init2Ok then
      { cfg := g2
        camReady := true
        ok := true
        trace := pre ++ a1 :: a2 :: (sensorApplyActs e.sensor g2 ++ warmupActs e.warmupFb 0 4) }
    else
      { cfg := g2
        camReady := false
        ok := false
        trace := pre ++ [a1, a2] }

/-- handleReinit (src/src/main.cpp lines 422–425): runs camera_reinit and
answers 200 "reinit ok" or 500 "reinit failed". -/
def handleReinit (g : Cfg) (e : ReinitEnv) : ReinitResult × Nat × String :=
  let r := camera_reinit g e
  (r, if r.ok then 200 else 500, if r.ok then "reinit ok" else "reinit failed")

/-- Sensor handle with every setter present. -/
def allCaps : SensorCaps :=
  { hasFramesize := true
    hasQuality := true
    hasGainCtrl := true
    hasExposureCtrl := true
    hasWhitebal := true
    hasAwbGain := true }

/-- Concrete reinit environment: everything succeeds. -/
def envAllOk : ReinitEnv :=
  { psram := true
    init1Ok := true
    init2Ok := true
    sensor := some allCaps
    warmupFb := fun _ => true }

/-- Concrete reinit environment: the first init attempt fails, the
fallback attempt succeeds. -/
def envFirstFails : ReinitEnv :=
  { psram := true
    init1Ok := false
    init2Ok := true
    sensor := some allCaps
    warmupFb := fun _ => true }

/-- Concrete reinit environment: both init attempts fail. -/
def envBothFail : ReinitEnv :=
  { psram := true
    init1Ok := false
    init2Ok := false
    sensor := some allCaps
    warmupFb := fun _ => true }

/-- Clock frequency and buffer count of each esp_camera_init call in a
reinit trace, in order. -/
def attemptsOf (tr : List RCall) : List (Nat × Nat) :=
  tr.filterMap fun c =>
    match c with
    | RCall.initAttempt x f _ => some (x, f)
    | _ => none

/-! Predicates used to count trace actions. -/

/-- Recognizes a successful acquisition. -/
def isAcqOkA : Act → Bool
  | Act.acqOk => true
  | _ => false

/-- Recognizes the driver-release of a FrameBuffer. -/
def isFbReturnA : Act → Bool
  | Act.fbReturn => true
  | _ => false

/-- Recognizes the free of a converted buffer. -/
def isBufFreeA : Act → Bool
  | Act.bufFree => true
  | _ => false

/-- Recognizes a successful frame2jpg conversion. -/
def isConvOkA : Act → Bool
  | Act.convert _ true => true
  | _ => false

/-- Recognizes any acquisition attempt, successful or null. -/
def isAcqAttemptA : Act → Bool
  | Act.acqOk => true
  | Act.acqNull => true
  | _ => false

/-- Release balance of one handleStream iteration: the FrameBuffer is
returned exactly once per successful acquisition, and the converted
buffer is freed exactly once per successful conversion. -/
lemma frameIter_balance (q : Nat) (f : FrameEnv) :
    ((frameIterActs q f).1.countP isFbReturnA
        = (frameIterActs q f).1.countP isAcqOkA)
      ∧ ((frameIterActs q f).1.countP isBufFreeA
        = (frameIterActs q f).1.countP isConvOkA) := by
  obtain ⟨j, d, c, wH, wP, wT⟩ := f
  cases j <;> cases c <;> cases wH <;> cases wP <;> cases wT <;>
    simp [frameIterActs, isFbReturnA, isAcqOkA, isBufFreeA, isConvOkA,
      List.countP_cons, List.countP_nil]

/-- Release balance of the handleStream loop. -/
lemma streamLoop_balance (q : Nat) (evs : List Ev) : ∀ n : Nat,
    ((streamLoop q n evs).countP isFbReturnA
        = (streamLoop q n evs).countP isAcqOkA)
      ∧ ((streamLoop q n evs).countP isBufFreeA
        = (streamLoop q n evs).countP isConvOkA) := by
  induction evs with
  | nil => intro n; simp [streamLoop]
  | cons ev rest ih =>
    intro n
    cases ev with
    | disconnect => simp [streamLoop]
    | nullFrame =>
      by_cases h : STREAM_NULL_BOUND ≤ (n + 1) % 256 <;>
        simp [streamLoop, h, isFbReturnA, isAcqOkA, isBufFreeA, isConvOkA,
          List.countP_cons, ih]
    | frame f =>
      have hb := frameIter_balance q f
      have hr := ih 0
      by_cases h : (frameIterActs q f).2 = true <;>
        simp [streamLoop, h, List.countP_append, List.countP_cons,
          isFbReturnA, isAcqOkA, isBufFreeA, isConvOkA] <;>
        omega

/-- Release balance of one default-variant stream_handler iteration. -/
lemma defaultFrameIter_balance (q : Nat) (f : FrameEnv) :
    ((defaultFrameIterActs q f).1.countP isFbReturnA
        = (defaultFrameIterActs q f).1.countP isAcqOkA)
      ∧ ((defaultFrameIterActs q f).1.countP isBufFreeA
        = (defaultFrameIterActs q f).1.countP isConvOkA) := by
  obtain ⟨j, d, c, wH, wP, wT⟩ := f
  cases j <;> cases c <;> cases wH <;> cases wP <;> cases wT <;>
    simp [defaultFrameIterActs, isFbReturnA, isAcqOkA, isBufFreeA, isConvOkA,
      List.countP_cons, List.countP_nil]

/-- Release balance of the default-variant stream loop. -/
lemma defaultStreamLoop_balance (q : Nat) (devs : List DEv) :
    ((defaultStreamLoop q devs).countP isFbReturnA
        = (defaultStreamLoop q devs).countP isAcqOkA)
      ∧ ((defaultStreamLoop q devs).countP isBufFreeA
        = (defaultStreamLoop q devs).countP isConvOkA) := by
  induction devs with
  | nil => simp [defaultStreamLoop]
  | cons ev rest ih =>
    cases ev with
    | nullFrame =>
      simp [defaultStreamLoop, isFbReturnA, isAcqOkA, isBufFreeA, isConvOkA,
        List.countP_cons]
    | frame f =>
      have hb := defaultFrameIter_balance q f
      by_cases h : (defaultFrameIterActs q f).2 = true <;>
        simp [defaultStreamLoop, h, List.countP_append, List.countP_cons,
          isFbReturnA, isAcqOkA, isBufFreeA, isConvOkA] <;>
        omega

/-- Release balance of handleJpg. -/
lemma handleJpg_balance (g : Cfg) (camReady : Bool) (acq : Option FrameEnv) :
    ((handleJpg g camReady acq).2.2.countP isFbReturnA
        = (handleJpg g camReady acq).2.2.countP isAcqOkA)
      ∧ ((handleJpg g camReady acq).2.2.countP isBufFreeA
        = (handleJpg g camReady acq).2.2.countP isConvOkA) := by
  cases camReady with
  | false => simp [handleJpg]
  | true =>
    cases acq with
    | none =>
      simp [handleJpg, isFbReturnA, isAcqOkA, isBufFreeA, isConvOkA,
        List.countP_cons]
    | some f =>
      obtain ⟨j, d, c, wH, wP, wT⟩ := f
      cases j <;> cases c <;>
        simp [handleJpg, isFbReturnA, isAcqOkA, isBufFreeA, isConvOkA,
          List.countP_cons]

/-- C1: in every streaming session (both variants) and every snapshot
request, each successful frame acquisition is matched by exactly one
driver-release of its FrameBuffer, and each successful conversion by
exactly one free of the separately allocated converted buffer — on all
code paths, including write-failure and conversion-failure paths, never
both and never neither for a given frame. -/
theorem c1_exactly_one_release :
    (∀ q n evs,
        ((streamLoop q n evs).countP isFbReturnA
            = (streamLoop q n evs).countP isAcqOkA)
          ∧ ((streamLoop q n evs).countP isBufFreeA
            = (streamLoop q n evs).countP isConvOkA))
      ∧ (∀ q devs,
        ((defaultStreamLoop q devs).countP isFbReturnA
            = (defaultStreamLoop q devs).countP isAcqOkA)
          ∧ ((defaultStreamLoop q devs).countP isBufFreeA
            = (defaultStreamLoop q devs).countP isConvOkA))
      ∧ (∀ g camReady acq,
        ((handleJpg g camReady acq).2.2.countP isFbReturnA
            = (handleJpg g camReady acq).2.2.countP isAcqOkA)
          ∧ ((handleJpg g camReady acq).2.2.countP isBufFreeA
            = (handleJpg g camReady acq).2.2.countP isConvOkA)) :=
  ⟨fun q n evs => streamLoop_balance q evs n,
   fun q devs => defaultStreamLoop_balance q devs,
   fun g camReady acq => handleJpg_balance g camReady acq⟩

/-- Trace of k null acquisitions each retried after delay(8). -/
def nullRetryActs : Nat → List Act
  | 0 => []
  | k + 1 => Act.acqNull :: Act.delayMs 8 :: nullRetryActs k

/-- C2: the streaming session is aborted for lack of frames iff the
consecutive-null bound of 8 (within the documented 5–10 range) is
reached: eight consecutive nulls end the session regardless of what
would come next, seven consecutive nulls followed by a frame do not (the
frame is processed, each null having been retried after a delay), and a
fully successful frame iteration resets the consecutive-null counter to
zero whatever its previous value. -/
theorem c2_null_retry_bound :
    STREAM_NULL_BOUND = 8
      ∧ (5 ≤ STREAM_NULL_BOUND ∧ STREAM_NULL_BOUND ≤ 10)
      ∧ (∀ q rest,
        streamLoop q 0 (List.replicate STREAM_NULL_BOUND Ev.nullFrame ++ rest)
          = nullRetryActs (STREAM_NULL_BOUND - 1) ++ [Act.acqNull])
      ∧ (∀ q f rest,
        streamLoop q 0
            (List.replicate (STREAM_NULL_BOUND - 1) Ev.nullFrame
              ++ Ev.frame f :: rest)
          = nullRetryActs (STREAM_NULL_BOUND - 1)
              ++ streamLoop q 0 (Ev.frame f :: rest))
      ∧ (∀ q n d c rest,
        streamLoop q n (Ev.frame ⟨true, d, c, true, true, true⟩ :: rest)
          = Act.acqOk :: Act.send (Chunk.hdr d.length)
              :: Act.send (Chunk.payload d) :: Act.send Chunk.trailer
              :: Act.fbReturn :: Act.delayMs 1 :: streamLoop q 0 rest) := by
  refine ⟨rfl, by decide, ?_, ?_, ?_⟩
  · intro q rest
    simp [STREAM_NULL_BOUND, List.replicate, streamLoop, nullRetryActs]
  · intro q f rest
    simp [STREAM_NULL_BOUND, List.replicate, streamLoop, nullRetryActs]
  · intro q n d c rest
    simp [streamLoop, frameIterActs]

/-- C5: a failed write of the part header, the payload, or the trailing
delimiter terminates the streaming session immediately — the trace ends
right after the release of the current frame's resources and the
remaining environment is never consulted — in all three injection
points, for the aliased-JPEG path and the converted path, in both the
handleStream variant and the default stream_handler variant. -/
theorem c5_write_failure_terminates :
    (∀ q n d c wP wT rest,
        streamLoop q n (Ev.frame ⟨true, d, c, false, wP, wT⟩ :: rest)
          = [Act.acqOk, Act.fbReturn])
      ∧ (∀ q n d c wT rest,
        streamLoop q n (Ev.frame ⟨true, d, c, true, false, wT⟩ :: rest)
          = [Act.acqOk, Act.send (Chunk.hdr d.length), Act.fbReturn])
      ∧ (∀ q n d c rest,
        streamLoop q n (Ev.frame ⟨true, d, c, true, true, false⟩ :: rest)
          = [Act.acqOk, Act.send (Chunk.hdr d.length),
             Act.send (Chunk.payload d), Act.fbReturn])
      ∧ (∀ q n d j wP wT rest,
        streamLoop q n (Ev.frame ⟨false, d, some j, false, wP, wT⟩ :: rest)
          = [Act.acqOk, Act.convert q true, Act.fbReturn, Act.bufFree])
      ∧ (∀ q n d j wT rest,
        streamLoop q n (Ev.frame ⟨false, d, some j, true, false, wT⟩ :: rest)
          = [Act.acqOk, Act.convert q true, Act.fbReturn,
             Act.send (Chunk.hdr j.length), Act.bufFree])
      ∧ (∀ q n d j rest,
        streamLoop q n (Ev.frame ⟨false, d, some j, true, true, false⟩ :: rest)
          = [Act.acqOk, Act.convert q true, Act.fbReturn,
             Act.send (Chunk.hdr j.length), Act.send (Chunk.payload j),
             Act.bufFree])
      ∧ (∀ q d c wP wT rest,
        defaultStreamLoop q (DEv.frame ⟨true, d, c, false, wP, wT⟩ :: rest)
          = [Act.acqOk, Act.fbReturn])
      ∧ (∀ q d c wT rest,
        defaultStreamLoop q (DEv.frame ⟨true, d, c, true, false, wT⟩ :: rest)
          = [Act.acqOk, Act.send (Chunk.hdr d.length), Act.fbReturn])
      ∧ (∀ q d c rest,
        defaultStreamLoop q (DEv.frame ⟨true, d, c, true, true, false⟩ :: rest)
          = [Act.acqOk, Act.send (Chunk.hdr d.length),
             Act.send (Chunk.payload d), Act.fbReturn])
      ∧ (∀ q d j wP wT rest,
        defaultStreamLoop q (DEv.frame ⟨false, d, some j, false, wP, wT⟩ :: rest)
          = [Act.acqOk, Act.convert q true, Act.fbReturn, Act.bufFree])
      ∧ (∀ q d j wT rest,
        defaultStreamLoop q (DEv.frame ⟨false, d, some j, true, false, wT⟩ :: rest)
          = [Act.acqOk, Act.convert q true, Act.fbReturn,
             Act.send (Chunk.hdr j.length), Act.bufFree])
      ∧ (∀ q d j rest,
        defaultStreamLoop q (DEv.frame ⟨false, d, some j, true, true, false⟩ :: rest)
          = [Act.acqOk, Act.convert q true, Act.fbReturn,
             Act.send (Chunk.hdr j.length), Act.send (Chunk.payload j),
             Act.bufFree]) := by
  refine ⟨?_, ?_, ?_, ?_, ?_, ?_, ?_, ?_, ?_, ?_, ?_, ?_⟩ <;>
    intros <;>
    simp [streamLoop, frameIterActs, defaultStreamLoop, defaultFrameIterActs]

/-- Chunks successfully written to the client during a session. -/
def sentChunks (tr : List Act) : List Chunk :=
  tr.filterMap fun a =>
    match a with
    | Act.send c => some c
    | _ => none

/-- Content-Length values of the part headers written during a session,
in order. -/
def contentLengths (tr : List Act) : List Nat :=
  (sentChunks tr).filterMap fun c =>
    match c with
    | Chunk.hdr n => some n
    | _ => none

/-- Bytes of the stream body written during a session. -/
def renderParts (tr : List Act) : List Nat :=
  ((sentChunks tr).map renderChunk).flatten

/-- Three already-JPEG frames of payload lengths 1000, 2000 and 1500,
each with all three writes succeeding. -/
def threeFrames : List Ev :=
  [Ev.frame ⟨true, List.replicate 1000 1, none, true, true, true⟩,
   Ev.frame ⟨true, List.replicate 2000 2, none, true, true, true⟩,
   Ev.frame ⟨true, List.replicate 1500 3, none, true, true, true⟩]

set_option maxRecDepth 100000 in
/-- C6: a ready streaming session emits the fixed preamble once —
status 200, Content-Type multipart/x-mixed-replace with boundary token
frame, cache-disabling headers — and per successfully transmitted frame
of encoded length N exactly the part header with Content-Length N, the N
payload bytes and the two-byte CRLF trailer; for frames of lengths 1000,
2000 and 1500 the three emitted Content-Length values are exactly 1000,
2000 and 1500 in that order. -/
theorem c6_multipart_format :
    (∀ g evs,
        handleStream g true true evs
          = (g, StreamOut.session streamPreamble (streamLoop g.jpegQuality 0 evs)))
      ∧ streamPreamble
          = "HTTP/1.1 200 OK\r\nContent-Type: multipart/x-mixed-replace; boundary=frame\r\nCache-Control: no-store, no-cache, must-revalidate, max-age=0\r\nPragma: no-cache\r\nConnection: close\r\n\r\n"
      ∧ (∀ q n d c rest,
        streamLoop q n (Ev.frame ⟨true, d, c, true, true, true⟩ :: rest)
          = Act.acqOk :: Act.send (Chunk.hdr d.length)
              :: Act.send (Chunk.payload d) :: Act.send Chunk.trailer
              :: Act.fbReturn :: Act.delayMs 1 :: streamLoop q 0 rest)
      ∧ (∀ q d,
        renderParts (streamLoop q 0 [Ev.frame ⟨true, d, none, true, true, true⟩])
          = (("--frame\r\nContent-Type: image/jpeg\r\nContent-Length: "
              ++ Nat.repr d.length ++ "\r\n\r\n").toList.map Char.toNat)
            ++ d ++ [13, 10])
      ∧ (∀ q, contentLengths (streamLoop q 0 threeFrames) = [1000, 2000, 1500])
      ∧ (∀ q,
        sentChunks (streamLoop q 0 threeFrames)
          = [Chunk.hdr 1000, Chunk.payload (List.replicate 1000 1), Chunk.trailer,
             Chunk.hdr 2000, Chunk.payload (List.replicate 2000 2), Chunk.trailer,
             Chunk.hdr 1500, Chunk.payload (List.replicate 1500 3), Chunk.trailer]) := by
  refine ⟨?_, rfl, ?_, ?_, ?_, ?_⟩
  · intro g evs
    simp [handleStream]
  · intro q n d c rest
    simp [streamLoop, frameIterActs]
  · intro q d
    simp [streamLoop, frameIterActs, renderParts, sentChunks, renderChunk,
      partHeader]
  · intro q
    simp [threeFrames, streamLoop, frameIterActs, contentLengths, sentChunks,
      List.length_replicate]
  · intro q
    simp [threeFrames, streamLoop, frameIterActs, sentChunks,
      List.length_replicate]

/-- C7: the encoder step of each acquired frame.  Already-JPEG frame:
the payload written is the FrameBuffer's own bytes (zero-copy alias), no
conversion runs, and the FrameBuffer is released only after the writes
of that frame have finished.  Non-JPEG frame: frame2jpg runs with the
quality global and the FrameBuffer is released immediately after the
conversion call, whether it succeeded or failed; a failed conversion
ends the session at once with no retry.  The same discipline holds for
the snapshot handler. -/
theorem c7_encoder_ownership :
    (∀ q n d c rest,
        streamLoop q n (Ev.frame ⟨true, d, c, true, true, true⟩ :: rest)
          = Act.acqOk :: Act.send (Chunk.hdr d.length)
              :: Act.send (Chunk.payload d) :: Act.send Chunk.trailer
              :: Act.fbReturn :: Act.delayMs 1 :: streamLoop q 0 rest)
      ∧ (∀ q n d j wH wP wT rest,
        (streamLoop q n (Ev.frame ⟨false, d, some j, wH, wP, wT⟩ :: rest)).take 3
          = [Act.acqOk, Act.convert q true, Act.fbReturn])
      ∧ (∀ q n d wH wP wT rest,
        streamLoop q n (Ev.frame ⟨false, d, none, wH, wP, wT⟩ :: rest)
          = [Act.acqOk, Act.convert q false, Act.fbReturn])
      ∧ (∀ g d c wH wP wT,
        handleJpg g true (some ⟨true, d, c, wH, wP, wT⟩)
          = (g, JpgOut.image d,
             [Act.acqOk, Act.send (Chunk.payload d), Act.fbReturn]))
      ∧ (∀ g d j wH wP wT,
        handleJpg g true (some ⟨false, d, some j, wH, wP, wT⟩)
          = (g, JpgOut.image j,
             [Act.acqOk, Act.convert g.jpegQuality true, Act.fbReturn,
              Act.send (Chunk.payload j), Act.bufFree]))
      ∧ (∀ g d wH wP wT,
        handleJpg g true (some ⟨false, d, none, wH, wP, wT⟩)
          = (g, JpgOut.convFailed,
             [Act.acqOk, Act.convert g.jpegQuality false, Act.fbReturn])) := by
  refine ⟨?_, ?_, ?_, ?_, ?_, ?_⟩
  · intro q n d c rest
    simp [streamLoop, frameIterActs]
  · intro q n d j wH wP wT rest
    cases wH <;> cases wP <;> cases wT <;> simp [streamLoop, frameIterActs]
  · intro q n d wH wP wT rest
    simp [streamLoop, frameIterActs]
  · intro g d c wH wP wT
    simp [handleJpg]
  · intro g d j wH wP wT
    simp [handleJpg]
  · intro g d wH wP wT
    simp [handleJpg]

/-- C8: the health endpoint always answers with the JSON object built
from the probe outcome and the two free-memory figures, with status 200
exactly when ok and 500 otherwise; when the pipeline is not ready it
reports ok false without attempting any acquisition; otherwise it
attempts at most 2 acquire/release cycles — fewer than the streaming
retry bound of 8 — and ok is true exactly when one of the two attempts
acquires a frame, the first success ending the probe. -/
theorem c8_health_endpoint :
    (∀ g fb fi fp,
        handleHealth g false fb fi fp
          = (g, ⟨false, 500, healthJson false fi fp, []⟩))
      ∧ (∀ g camReady fb fi fp,
        (handleHealth g camReady fb fi fp).2.trace.countP isAcqAttemptA
          ≤ HEALTH_PROBE_TRIES)
      ∧ HEALTH_PROBE_TRIES = 2
      ∧ HEALTH_PROBE_TRIES < STREAM_NULL_BOUND
      ∧ (∀ g fb fi fp,
        (handleHealth g true fb fi fp).2.ok = (fb 0 || fb 1))
      ∧ (∀ g camReady fb fi fp,
        (handleHealth g camReady fb fi fp).2.status
          = if (handleHealth g camReady fb fi fp).2.ok then 200 else 500)
      ∧ (∀ g camReady fb fi fp,
        (handleHealth g camReady fb fi fp).2.body
          = healthJson (handleHealth g camReady fb fi fp).2.ok fi fp)
      ∧ (∀ g fb fi fp,
        (handleHealth g true fb fi fp).2.trace
          = if fb 0 then [Act.acqOk, Act.fbReturn]
            else if fb 1 then
              [Act.acqNull, Act.delayMs 15, Act.acqOk, Act.fbReturn]
            else
              [Act.acqNull, Act.delayMs 15, Act.acqNull, Act.delayMs 15]) := by
  refine ⟨?_, ?_, rfl, by decide, ?_, ?_, ?_, ?_⟩
  · intro g fb fi fp
    simp [handleHealth]
  · intro g camReady fb fi fp
    cases camReady with
    | false => simp [handleHealth]
    | true =>
      rcases h0 : fb 0 <;> rcases h1 : fb 1 <;>
        simp [handleHealth, HEALTH_PROBE_TRIES, probeFrom, h0, h1,
          isAcqAttemptA, List.countP_cons]
  · intro g fb fi fp
    rcases h0 : fb 0 <;> rcases h1 : fb 1 <;>
      simp [handleHealth, HEALTH_PROBE_TRIES, probeFrom, h0, h1]
  · intro g camReady fb fi fp
    cases camReady with
    | false => simp [handleHealth]
    | true =>
      rcases h0 : fb 0 <;> rcases h1 : fb 1 <;>
        simp [handleHealth, HEALTH_PROBE_TRIES, probeFrom, h0, h1]
  · intro g camReady fb fi fp
    cases camReady with
    | false => simp [handleHealth]
    | true =>
      rcases h0 : fb 0 <;> rcases h1 : fb 1 <;>
        simp [handleHealth, HEALTH_PROBE_TRIES, probeFrom, h0, h1]
  · intro g fb fi fp
    rcases h0 : fb 0 <;> rcases h1 : fb 1 <;>
      simp [handleHealth, HEALTH_PROBE_TRIES, probeFrom, h0, h1]

/-- C10: in the default-variant streaming handler, a single null
acquisition immediately sends an HTTP 500 and ends the session — no
retry, no delay, no consecutive-null counting — whatever environment
would have followed. -/
theorem c10_default_null_aborts :
    (∀ q rest,
        defaultStreamLoop q (DEv.nullFrame :: rest)
          = [Act.acqNull, Act.send500])
      ∧ (∀ q rest,
        default_stream_handler q true (DEv.nullFrame :: rest)
          = [Act.acqNull, Act.send500]) := by
  exact ⟨fun q rest => rfl, fun q rest => rfl⟩

/-- The sensor-setting calls contain no power/reset sequencing. -/
lemma pulse_not_mem_sensorApply (s : Option SensorCaps) (g : Cfg) :
    RCall.pulsePowerReset ∉ sensorApplyActs s g := by
  cases s with
  | none => simp [sensorApplyActs]
  | some c =>
    simp only [sensorApplyActs, List.mem_append]
    split_ifs <;> simp

/-- The warm-up calls contain no power/reset sequencing. -/
lemma pulse_not_mem_warmup (fb : Nat → Bool) (k : Nat) : ∀ i : Nat,
    RCall.pulsePowerReset ∉ warmupActs fb i k := by
  induction k with
  | zero => intro i; simp [warmupActs]
  | succ k ih =>
    intro i
    rcases h : fb i <;> simp [warmupActs, h, ih]

/-- The sensor-setting calls contain no init attempt. -/
lemma attemptsOf_sensorApply (s : Option SensorCaps) (g : Cfg) :
    attemptsOf (sensorApplyActs s g) = [] := by
  cases s with
  | none => simp [sensorApplyActs, attemptsOf]
  | some c =>
    simp only [sensorApplyActs, attemptsOf]
    split_ifs <;> simp

/-- The warm-up calls contain no init attempt. -/
lemma attemptsOf_warmup (fb : Nat → Bool) (k : Nat) : ∀ i : Nat,
    attemptsOf (warmupActs fb i k) = [] := by
  induction k with
  | zero => intro i; simp [warmupActs, attemptsOf]
  | succ k ih =>
    intro i
    have h2 := ih (i + 1)
    rcases h : fb i <;> simp [warmupActs, attemptsOf, h] <;>
      simpa [attemptsOf] using h2

/-- C3 counterexample: on a fully successful run from the startup
configuration, the camera_reinit trace is deinitialization, then bus
recovery, then directly the init attempt, the sensor re-application and
the warm-up — no Power/Reset Sequencer step occurs anywhere in it, so
the claimed deinit → bus recovery → power/reset → init order is false of
this code. -/
theorem c3_counterexample :
    (camera_reinit initialCfg envAllOk).trace
        = [RCall.deinit, RCall.sccbRecover, RCall.initAttempt 24000000 2 true,
           RCall.setFramesize 7, RCall.setQuality 12, RCall.setGainCtrl 1,
           RCall.setExposureCtrl 1, RCall.setWhitebal 1, RCall.setAwbGain 1,
           RCall.fbGet true, RCall.fbReturn, RCall.delayMs 30,
           RCall.fbGet true, RCall.fbReturn, RCall.delayMs 30,
           RCall.fbGet true, RCall.fbReturn, RCall.delayMs 30,
           RCall.fbGet true, RCall.fbReturn, RCall.delayMs 30]
      ∧ RCall.pulsePowerReset ∉ (camera_reinit initialCfg envAllOk).trace := by
  constructor <;> decide

/-- C3 amended: camera_reinit (also what the /reinit endpoint runs)
performs, in order, deinitialization of the current driver, then the Bus
Recovery Unit, then initialization from the current globals; it contains
no Power/Reset Sequencer step at all — consistent with the power-down
pin being the absent sentinel -1. -/
theorem c3_reinit_order_amended :
    (∀ g e,
        (camera_reinit g e).trace.take 3
          = [RCall.deinit, RCall.sccbRecover,
             RCall.initAttempt (make_cam_cfg g e.psram).xclkFreqHz
               (make_cam_cfg g e.psram).fbCount (make_cam_cfg g e.psram).fbInPsram])
      ∧ (∀ g e, RCall.pulsePowerReset ∉ (camera_reinit g e).trace)
      ∧ (∀ g e, (handleReinit g e).1 = camera_reinit g e)
      ∧ PWDN_GPIO_NUM = -1 := by
  refine ⟨?_, ?_, fun g e => rfl, rfl⟩
  · intro g e
    rcases h1 : e.init1Ok <;> rcases h2 : e.init2Ok <;>
      simp [camera_reinit, h1, h2]
  · intro g e
    have hs := pulse_not_mem_sensorApply e.sensor g
    have hs2 := pulse_not_mem_sensorApply e.sensor { g with xclkHz := 20000000 }
    have hw := pulse_not_mem_warmup e.warmupFb 4 0
    rcases h1 : e.init1Ok <;> rcases h2 : e.init2Ok <;>
      simp_all [camera_reinit, h1, h2]

/-- C4 counterexample: starting from the startup configuration with
PSRAM present, when the first init attempt fails the retry runs with
clock 20000000 but the very same buffer count 2 as the first attempt —
the buffer count is not reduced toward a single buffer, so the claimed
lower-clock-and-fewer-buffers retry is false of this code. -/
theorem c4_counterexample :
    attemptsOf (camera_reinit initialCfg envFirstFails).trace
        = [(24000000, 2), (20000000, 2)]
      ∧ (attemptsOf (camera_reinit initialCfg envFirstFails).trace).map Prod.snd
        = [2, 2] := by
  constructor <;> decide

/-- C4 amended: when the first initialization attempt fails,
initialization is retried exactly once, with the lower clock frequency
20 MHz and the same buffer count as the first attempt; if that retry
also fails the operation reports failure and leaves cam_ready false,
with no further attempts. -/
theorem c4_init_retry_amended :
    ∀ g e,
      (attemptsOf (camera_reinit g e).trace
          = if e.init1Ok then
              [(g.xclkHz, (make_cam_cfg g e.psram).fbCount)]
            else
              [(g.xclkHz, (make_cam_cfg g e.psram).fbCount),
               (20000000, (make_cam_cfg g e.psram).fbCount)])
        ∧ (camera_reinit g e).ok = (e.init1Ok || e.init2Ok)
        ∧ (camera_reinit g e).camReady = (e.init1Ok || e.init2Ok) := by
  intro g e
  have hs := attemptsOf_sensorApply e.sensor g
  have hs2 := attemptsOf_sensorApply e.sensor { g with xclkHz := 20000000 }
  have hw := attemptsOf_warmup e.warmupFb 4 0
  rcases h1 : e.init1Ok <;> rcases h2 : e.init2Ok <;>
    simp_all [camera_reinit, attemptsOf, make_cam_cfg, h1, h2]

/-- C9 counterexample: one reinitialization call whose first init
attempt fails mutates the configuration: the clock-frequency global is
24000000 before the call and 20000000 after it, so the claim that every
core operation leaves the configuration values unchanged is false. -/
theorem c9_counterexample :
    (camera_reinit initialCfg envFirstFails).cfg.xclkHz = 20000000
      ∧ initialCfg.xclkHz = 24000000
      ∧ (camera_reinit initialCfg envFirstFails).cfg ≠ initialCfg := by
  refine ⟨by decide, by decide, by decide⟩

/-- C9 amended: streaming, snapshot and health never modify the
configuration globals, and reinitialization preserves the resolution,
quality and buffer-count globals and preserves the clock frequency
whenever the first init attempt succeeds; but when the first attempt
fails, reinitialization persistently lowers the clock-frequency global
to 20000000. -/
theorem c9_config_amended :
    (∀ g camReady hasClient evs,
        (handleStream g camReady hasClient evs).1 = g)
      ∧ (∀ g camReady acq, (handleJpg g camReady acq).1 = g)
      ∧ (∀ g camReady fb fi fp, (handleHealth g camReady fb fi fp).1 = g)
      ∧ (∀ g e,
        (camera_reinit g e).cfg.streamSize = g.streamSize
          ∧ (camera_reinit g e).cfg.jpegQuality = g.jpegQuality
          ∧ (camera_reinit g e).cfg.fbCount = g.fbCount)
      ∧ (∀ g e,
        (camera_reinit g e).cfg.xclkHz
          = if e.init1Ok then g.xclkHz else 20000000) := by
  refine ⟨fun g c h evs => rfl, fun g c a => rfl, fun g c fb fi fp => rfl,
    ?_, ?_⟩
  · intro g e
    rcases h1 : e.init1Ok <;> rcases h2 : e.init2Ok <;>
      simp [camera_reinit, h1, h2]
  · intro g e
    rcases h1 : e.init1Ok <;> rcases h2 : e.init2Ok <;>
      simp [camera_reinit, h1, h2]

end NozzleCam
